import Mathlib

/-!
Shallow embedding of `src/tools/mcp_client.py` (OpenWebUI MCP client).

The file models the JSON repair pipeline `fix_json`, the `Tools` plugin
state (`_tools_list`, `_schema_cache`) and its three public operations
`mcp_list_tools`, `mcp_get_tool_schema`, `mcp_call_tool`.  External
collaborators (the `json`, `json5` and `json_repair` libraries, and the
remote MCP server reached through `streamablehttp_client` / `ClientSession`)
are abstracted as record parameters of function type; every remote
interaction of an operation is recorded in an explicit event trace.
-/

/-- A structured JSON value, the result type of the external parsers and the
argument type of the remote call. -/
inductive Json where
  | null
  | bool (b : Bool)
  | num (n : Int)
  | str (s : String)
  | arr (items : List Json)
  | obj (fields : List (String × Json))

/-- The external libraries used by `mcp_client.py`: `json.loads`,
`json5.loads`, `json_repair.repair_json` and `json.dumps(·, indent=2,
ensure_ascii=False)`.  Each fallible library call is modelled as an
`Except String` value carrying the exception text. -/
structure Libs where
  jsonLoads : String → Except String Json
  json5Loads : String → Except String Json
  repairJson : String → Except String String
  dumps : Json → String

/-- The error raised by `fix_json` when every strategy fails: the Python
`ValueError` carries the last underlying parser error `e` and the original
input `data`. -/
structure FixJsonError where
  lastError : String
  original : String
deriving Repr, BEq, DecidableEq

/-- `fix_json(data)` from `mcp_client.py` lines 57-80: try `json.loads`,
then `json5.loads`, then `repair_json` followed by `json.loads` of the
repaired text; raise `ValueError` if everything fails. -/
def fix_json (L : Libs) (data : String) : Except FixJsonError Json :=
  match L.jsonLoads data with
  | .ok v => .ok v
  | .error _ =>
    match L.json5Loads data with
    | .ok v => .ok v
    | .error _ =>
      match L.repairJson data with
      | .error e => .error ⟨e, data⟩
      | .ok repaired =>
        match L.jsonLoads repaired with
        | .ok v => .ok v
        | .error e => .error ⟨e, data⟩

/-- The rendering of the `ValueError` message raised by `fix_json`. -/
def fixJsonErrorMessage (e : FixJsonError) : String :=
  "Impossible de parser/réparer le JSON.\nErreur : " ++ e.lastError
    ++ "\nEntrée : " ++ e.original

/-- Strategy 1 of the spec repair pipeline: strict structured-data parse. -/
def strictStrategy (L : Libs) : String → Except String Json :=
  L.jsonLoads

/-- Strategy 2 of the spec repair pipeline: relaxed/extended grammar parse. -/
def relaxedStrategy (L : Libs) : String → Except String Json :=
  L.json5Loads

/-- Strategy 3 of the spec repair pipeline: heuristic repair pass followed
by a strict parse of the repaired text. -/
def heuristicStrategy (L : Libs) (text : String) : Except String Json :=
  match L.repairJson text with
  | .error e => .error e
  | .ok repaired => L.jsonLoads repaired

/-- Run an ordered list of repair strategies, each a full independent
attempt on the original text, accepting the first success; when the list is
exhausted, fail with the original text and the last underlying error. -/
def firstSuccess (strategies : List (String → Except String Json))
    (text : String) (lastErr : String) : Except FixJsonError Json :=
  match strategies with
  | [] => .error ⟨lastErr, text⟩
  | s :: rest =>
    match s text with
    | .ok v => .ok v
    | .error e => firstSuccess rest text e

/-- Spec-side definition of the repair pipeline, following section 4.6 of
the design: an ordered list of three strategies (strict parse, relaxed
parse, heuristic repair then strict parse), evaluated in sequence on the
original unmodified text until one succeeds; if all fail, the pipeline
fails carrying the original text and the last underlying parser error. -/
def repairSpec (L : Libs) (text : String) : Except FixJsonError Json :=
  firstSuccess [strictStrategy L, relaxedStrategy L, heuristicStrategy L] text ""

/-- The ASCII apostrophe character, as used inside the Python format
strings of `mcp_client.py`. -/
def sQuote : String :=
  String.singleton (Char.ofNat 39)

/-- The typographic apostrophe (U+2019) appearing in the gate guidance
string of `mcp_call_tool`. -/
def rQuote : String :=
  String.singleton (Char.ofNat 8217)

/-- A remote tool record as read from `session.list_tools()`: the code
accesses `t.function.name`, `t.function.description` and
`t.function.parameters.model_json_schema()`; `paramsSchema` stands for the
result of that last call. -/
structure RemoteTool where
  name : String
  description : String
  paramsSchema : Json

/-- The behaviour of the remote MCP endpoint during one operation:
`connect` models entering `streamablehttp_client` / `ClientSession` and
`session.initialize()`; `listTools` models `session.list_tools()`;
`callTool` models `session.call_tool(name, arguments)` followed by
`model_dump(mode="json")`.  Failures carry the exception text. -/
structure Remote where
  connect : Except String Unit
  listTools : Except String (List RemoteTool)
  callTool : String → Json → Except String Json

/-- The mutable state of a `Tools` instance: `self._tools_list` (the
cleaned name/description records) and `self._schema_cache` (tool name to
schema object, most recent insertion first). -/
structure ToolsState where
  tools_list : List Json
  schema_cache : List (String × Json)

/-- The state built by `Tools.__init__`: both caches empty. -/
def initState : ToolsState :=
  ⟨[], []⟩

/-- Observable side effects of one public operation, in order. -/
inductive Event where
  | sessionOpened
  | sessionClosed
  | remoteListTools
  | remoteCallTool (name : String)
  | fixJsonInvoked (text : String)
deriving Repr, BEq, DecidableEq

/-- The value of one public operation: the returned string, the state of
the `Tools` instance afterwards, and the event trace. -/
structure OpResult where
  response : String
  state : ToolsState
  events : List Event

/-- Python `tool_name in self._schema_cache` / item lookup on the dict,
over the insertion list representation. -/
def cacheLookup (cache : List (String × Json)) (k : String) : Option Json :=
  match cache with
  | [] => none
  | (k₁, v) :: rest => if k₁ = k then some v else cacheLookup rest k

/-- Python `self._schema_cache[tool_name] = schema`. -/
def cacheInsert (cache : List (String × Json)) (k : String) (v : Json) :
    List (String × Json) :=
  (k, v) :: cache

/-- The linear scan `for t in list_result.tools: if fn.name == tool_name`,
returning the first match. -/
def findTool (tools : List RemoteTool) (name : String) : Option RemoteTool :=
  match tools with
  | [] => none
  | t :: rest => if t.name = name then some t else findTool rest name

/-- The cleaned record `{"name": fn.name, "description": fn.description}`
built by `mcp_list_tools`. -/
def cleanedToolJson (t : RemoteTool) : Json :=
  .obj [("name", .str t.name), ("description", .str t.description)]

/-- The schema record built by `mcp_get_tool_schema` on a name match. -/
def toolSchemaJson (t : RemoteTool) : Json :=
  .obj [("name", .str t.name), ("description", .str t.description),
        ("parameters", t.paramsSchema)]

/-- The soft result `{"error": f"Tool '{tool_name}' introuvable."}`. -/
def toolNotFoundJson (tool_name : String) : Json :=
  .obj [("error",
    .str ("Tool " ++ sQuote ++ tool_name ++ sQuote ++ " introuvable."))]

/-- The gate guidance string returned by `mcp_call_tool` when `tool_name`
is not in `self._schema_cache` (lines 214-218). -/
def gateMessage (tool_name : String) : String :=
  "⚠️ Schéma non chargé pour `" ++ tool_name ++ "`.\n"
    ++ "Veuillez appeler d" ++ rQuote ++ "abord : mcp_get_tool_schema("
    ++ sQuote ++ tool_name ++ sQuote ++ ")"

/-- `Tools.mcp_list_tools` (lines 122-152): open a session, list the
remote tools, project each to name/description, store the snapshot in
`self._tools_list` and return the JSON dump; any exception is caught and
rendered as an error string. -/
def mcp_list_tools (r : Remote) (L : Libs) (st : ToolsState) : OpResult :=
  match r.connect with
  | .error e => ⟨"Error while listing MCP tools: " ++ e, st, []⟩
  | .ok _ =>
    match r.listTools with
    | .error e =>
      ⟨"Error while listing MCP tools: " ++ e, st,
        [.sessionOpened, .remoteListTools, .sessionClosed]⟩
    | .ok tools =>
      let cleaned := tools.map cleanedToolJson
      ⟨L.dumps (.arr cleaned), { st with tools_list := cleaned },
        [.sessionOpened, .remoteListTools, .sessionClosed]⟩

/-- `Tools.mcp_get_tool_schema` (lines 158-191): open a session, list the
remote tools, scan for an exact name match; on match store the schema in
`self._schema_cache` and return its dump; on no match return the dump of
the soft not-found record without touching the cache; any exception is
caught and rendered as an error string. -/
def mcp_get_tool_schema (r : Remote) (L : Libs) (st : ToolsState)
    (tool_name : String) : OpResult :=
  match r.connect with
  | .error e => ⟨"Error while getting MCP tool schema: " ++ e, st, []⟩
  | .ok _ =>
    match r.listTools with
    | .error e =>
      ⟨"Error while getting MCP tool schema: " ++ e, st,
        [.sessionOpened, .remoteListTools, .sessionClosed]⟩
    | .ok tools =>
      match findTool tools tool_name with
      | some t =>
        ⟨L.dumps (toolSchemaJson t),
          { st with
            schema_cache := cacheInsert st.schema_cache tool_name (toolSchemaJson t) },
          [.sessionOpened, .remoteListTools, .sessionClosed]⟩
      | none =>
        ⟨L.dumps (toolNotFoundJson tool_name), st,
          [.sessionOpened, .remoteListTools, .sessionClosed]⟩

/-- `Tools.mcp_call_tool` (lines 197-237): gate check against
`self._schema_cache` first; then `fix_json` on the argument text; then a
fresh session and the remote call; every exception is caught and rendered
as a string. -/
def mcp_call_tool (r : Remote) (L : Libs) (st : ToolsState)
    (tool_name : String) (arguments_json : String) : OpResult :=
  match cacheLookup st.schema_cache tool_name with
  | none => ⟨gateMessage tool_name, st, []⟩
  | some _ =>
    match fix_json L arguments_json with
    | .error e =>
      ⟨"❌ Erreur JSON : " ++ fixJsonErrorMessage e, st,
        [.fixJsonInvoked arguments_json]⟩
    | .ok args =>
      match r.connect with
      | .error e =>
        ⟨"Error while calling MCP tool " ++ sQuote ++ tool_name ++ sQuote ++ ": " ++ e,
          st, [.fixJsonInvoked arguments_json]⟩
      | .ok _ =>
        match r.callTool tool_name args with
        | .error e =>
          ⟨"Error while calling MCP tool " ++ sQuote ++ tool_name ++ sQuote ++ ": " ++ e,
            st,
            [.fixJsonInvoked arguments_json, .sessionOpened,
             .remoteCallTool tool_name, .sessionClosed]⟩
        | .ok res =>
          ⟨L.dumps res, st,
            [.fixJsonInvoked arguments_json, .sessionOpened,
             .remoteCallTool tool_name, .sessionClosed]⟩

/-- A concrete parser library for instantiating the theorems: the strict
parser accepts only the text `{}`, the relaxed parser accepts only `{a:1}`,
and the heuristic repair rewrites only `{broken` (to `{}`); everything else
fails.  `dumps` renders a fixed tag. -/
def stubLibs : Libs where
  jsonLoads := fun s =>
    if s = "\x7b\x7d" then .ok (.obj []) else .error "invalid json"
  json5Loads := fun s =>
    if s = "\x7ba:1\x7d" then .ok (.obj [("a", .num 1)]) else .error "invalid json5"
  repairJson := fun s =>
    if s = "\x7bbroken" then .ok "\x7b\x7d" else .error "could not repair"
  dumps := fun _ => "<json>"

/-- A concrete remote tool for instantiating the theorems. -/
def scrapeTool : RemoteTool :=
  ⟨"scrape", "Scrape a page", .obj []⟩

/-- A concrete healthy remote exposing only `scrapeTool`. -/
def stubRemote : Remote where
  connect := .ok ()
  listTools := .ok [scrapeTool]
  callTool := fun _ _ => .ok (.obj [("ok", .bool true)])

/-- A concrete remote whose transport cannot be reached. -/
def failingRemote : Remote where
  connect := .error "connection refused"
  listTools := .error "connection refused"
  callTool := fun _ _ => .error "connection refused"

/-- A concrete state in which the schema of `scrape` is cached. -/
def scrapeCachedState : ToolsState :=
  ⟨[], [("scrape", toolSchemaJson scrapeTool)]⟩

/-- Character-list version of `List.isPrefixOf`, written out so the
substring test below is a plain structural recursion. -/
def charsLead : List Char → List Char → Bool
  | [], _ => true
  | _ :: _, [] => false
  | p :: ps, c :: cs => p == c && charsLead ps cs

/-- Decidable substring test used to state that a response does not
contain a given marker. -/
def containsSub (s pat : String) : Bool :=
  (List.range (s.toList.length + 1)).any
    (fun i => charsLead pat.toList (s.toList.drop i))

/-- Claim C1: if no successful schema fetch for `t` has occurred (`t` is
absent from `_schema_cache`), `mcp_call_tool` returns the gate-blocked
guidance text, performs no remote interaction at all, and leaves the state
unchanged; in particular no remote tool call event can occur, so a tool may
be called only when its schema is present in the cache. -/
theorem c1_gate_blocks_uncached (r : Remote) (L : Libs) (st : ToolsState)
    (t args : String) (hnone : cacheLookup st.schema_cache t = none) :
    (mcp_call_tool r L st t args).response = gateMessage t ∧
    (mcp_call_tool r L st t args).events = [] ∧
    (mcp_call_tool r L st t args).state = st ∧
    ∀ n, Event.remoteCallTool n ∉ (mcp_call_tool r L st t args).events := by
  simp [mcp_call_tool, hnone]

/-- Witness for C1 at a concrete input: fresh state, tool `scrape`. -/
theorem c1_gate_blocks_uncached_witness :
    cacheLookup initState.schema_cache "scrape" = none ∧
    (mcp_call_tool stubRemote stubLibs initState "scrape" "\x7b\x7d").response
      = gateMessage "scrape" :=
  ⟨rfl,
    (c1_gate_blocks_uncached stubRemote stubLibs initState "scrape" "\x7b\x7d"
      rfl).1⟩

/-- Claim C4: `fix_json` coincides, for every choice of the external
parsers and every input text, with the spec-side pipeline `repairSpec`:
three strategies (strict parse, relaxed parse, heuristic repair followed by
strict parse) attempted in order on the original unmodified text, first
success accepted, and an error carrying the original text and the last
underlying parser error exactly when all three fail. -/
theorem c4_fix_json_refines_repairSpec (L : Libs) (data : String) :
    fix_json L data = repairSpec L data := by
  unfold fix_json repairSpec
  cases h1 : L.jsonLoads data with
  | ok v => simp [firstSuccess, strictStrategy, h1]
  | error e1 =>
    cases h2 : L.json5Loads data with
    | ok v => simp [firstSuccess, strictStrategy, relaxedStrategy, h1, h2]
    | error e2 =>
      cases h3 : L.repairJson data with
      | error e3 =>
        simp [firstSuccess, strictStrategy, relaxedStrategy, heuristicStrategy,
          h1, h2, h3]
      | ok rep =>
        cases h4 : L.jsonLoads rep with
        | ok v =>
          simp [firstSuccess, strictStrategy, relaxedStrategy, heuristicStrategy,
            h1, h2, h3, h4]
        | error e4 =>
          simp [firstSuccess, strictStrategy, relaxedStrategy, heuristicStrategy,
            h1, h2, h3, h4]

/-- Claim C6: on input that the strict parser already accepts, `fix_json`
returns exactly the strict parse, and the result does not depend on the
relaxed parser or on the heuristic repair function (they are never
reached). -/
theorem c6_repair_idempotent (L : Libs) (x : String) (v : Json)
    (h : L.jsonLoads x = .ok v) :
    fix_json L x = .ok v ∧
    ∀ g rp, fix_json ⟨L.jsonLoads, g, rp, L.dumps⟩ x = .ok v := by
  constructor
  · simp [fix_json, h]
  · intro g rp
    simp [fix_json, h]

/-- Witness for C6 at a concrete input: `stubLibs` strict parser on `{}`. -/
theorem c6_repair_idempotent_witness :
    stubLibs.jsonLoads "\x7b\x7d" = .ok (.obj []) ∧
    fix_json stubLibs "\x7b\x7d" = .ok (.obj []) :=
  ⟨rfl, (c6_repair_idempotent stubLibs "\x7b\x7d" (.obj []) rfl).1⟩

/-- Claim C2: after `mcp_get_tool_schema` finds a matching remote tool and
returns its schema, the schema is in the cache, and a subsequent
`mcp_call_tool` with strictly valid argument text passes the gate and
dispatches the remote call (a remote tool call event occurs). -/
theorem c2_schema_fetch_unlocks_call (r : Remote) (L : Libs) (st : ToolsState)
    (t args : String) (tools : List RemoteTool) (tool : RemoteTool) (v : Json)
    (hconn : r.connect = .ok ())
    (hlist : r.listTools = .ok tools)
    (hfind : findTool tools t = some tool)
    (hparse : L.jsonLoads args = .ok v) :
    (mcp_get_tool_schema r L st t).response = L.dumps (toolSchemaJson tool) ∧
    cacheLookup (mcp_get_tool_schema r L st t).state.schema_cache t
      = some (toolSchemaJson tool) ∧
    Event.remoteCallTool t ∈
      (mcp_call_tool r L (mcp_get_tool_schema r L st t).state t args).events := by
  have hstate : (mcp_get_tool_schema r L st t).state
      = { st with schema_cache := (t, toolSchemaJson tool) :: st.schema_cache } := by
    simp [mcp_get_tool_schema, hconn, hlist, hfind, cacheInsert]
  refine ⟨by simp [mcp_get_tool_schema, hconn, hlist, hfind], ?_, ?_⟩
  · rw [hstate]
    simp [cacheLookup]
  · rw [hstate]
    cases hcall : r.callTool t v with
    | ok res => simp [mcp_call_tool, cacheLookup, fix_json, hparse, hconn, hcall]
    | error e => simp [mcp_call_tool, cacheLookup, fix_json, hparse, hconn, hcall]

/-- Witness for C2 at a concrete input: fetch the schema of `scrape` from
`stubRemote`, then call it with the strictly valid text `{}`. -/
theorem c2_schema_fetch_unlocks_call_witness :
    stubRemote.connect = .ok () ∧
    stubRemote.listTools = .ok [scrapeTool] ∧
    findTool [scrapeTool] "scrape" = some scrapeTool ∧
    stubLibs.jsonLoads "\x7b\x7d" = .ok (.obj []) ∧
    Event.remoteCallTool "scrape" ∈
      (mcp_call_tool stubRemote stubLibs
        (mcp_get_tool_schema stubRemote stubLibs initState "scrape").state
        "scrape" "\x7b\x7d").events :=
  ⟨rfl, rfl, rfl, rfl,
    (c2_schema_fetch_unlocks_call stubRemote stubLibs initState "scrape"
      "\x7b\x7d" [scrapeTool] scrapeTool (.obj []) rfl rfl rfl rfl).2.2⟩

/-- Claim C3: when the requested tool is absent from the remote listing,
`mcp_get_tool_schema` returns the structured not-found result, leaves the
state (in particular the schema cache) unchanged, and a later
`mcp_call_tool` for that name is still gate-blocked with no remote
interaction. -/
theorem c3_not_found_leaves_cache (r : Remote) (L : Libs) (st : ToolsState)
    (t args : String) (tools : List RemoteTool)
    (hconn : r.connect = .ok ())
    (hlist : r.listTools = .ok tools)
    (hmiss : findTool tools t = none)
    (hnone : cacheLookup st.schema_cache t = none) :
    (mcp_get_tool_schema r L st t).response = L.dumps (toolNotFoundJson t) ∧
    (mcp_get_tool_schema r L st t).state = st ∧
    (mcp_call_tool r L (mcp_get_tool_schema r L st t).state t args).response
      = gateMessage t ∧
    (mcp_call_tool r L (mcp_get_tool_schema r L st t).state t args).events
      = [] := by
  have hstate : (mcp_get_tool_schema r L st t).state = st := by
    simp [mcp_get_tool_schema, hconn, hlist, hmiss]
  refine ⟨by simp [mcp_get_tool_schema, hconn, hlist, hmiss], hstate, ?_, ?_⟩
  · rw [hstate]
    simp [mcp_call_tool, hnone]
  · rw [hstate]
    simp [mcp_call_tool, hnone]

/-- Witness for C3 at a concrete input: `mirror` is not among the tools of
`stubRemote`, and is not cached in the fresh state. -/
theorem c3_not_found_leaves_cache_witness :
    findTool [scrapeTool] "mirror" = none ∧
    cacheLookup initState.schema_cache "mirror" = none ∧
    (mcp_get_tool_schema stubRemote stubLibs initState "mirror").state
      = initState ∧
    (mcp_call_tool stubRemote stubLibs
      (mcp_get_tool_schema stubRemote stubLibs initState "mirror").state
      "mirror" "\x7b\x7d").response = gateMessage "mirror" :=
  ⟨rfl, rfl,
    (c3_not_found_leaves_cache stubRemote stubLibs initState "mirror" "\x7b\x7d"
      [scrapeTool] rfl rfl rfl rfl).2.1,
    (c3_not_found_leaves_cache stubRemote stubLibs initState "mirror" "\x7b\x7d"
      [scrapeTool] rfl rfl rfl rfl).2.2.1⟩

/-- Claim C5: for a schema-cached tool, when `fix_json` fails on the
argument text, `mcp_call_tool` returns the structured parse-error string
and performs no remote interaction: no session is opened and no remote
call occurs. -/
theorem c5_unrepairable_no_dispatch (r : Remote) (L : Libs) (st : ToolsState)
    (t args : String) (s : Json) (e : FixJsonError)
    (hcached : cacheLookup st.schema_cache t = some s)
    (hfail : fix_json L args = .error e) :
    (mcp_call_tool r L st t args).response
      = "❌ Erreur JSON : " ++ fixJsonErrorMessage e ∧
    (mcp_call_tool r L st t args).events = [.fixJsonInvoked args] ∧
    Event.sessionOpened ∉ (mcp_call_tool r L st t args).events ∧
    ∀ n, Event.remoteCallTool n ∉ (mcp_call_tool r L st t args).events := by
  simp [mcp_call_tool, hcached, hfail]

/-- Witness for C5 at a concrete input: `scrape` is cached and the garbage
text `{a: ` defeats all three repair strategies of `stubLibs`. -/
theorem c5_unrepairable_no_dispatch_witness :
    cacheLookup scrapeCachedState.schema_cache "scrape"
      = some (toolSchemaJson scrapeTool) ∧
    fix_json stubLibs "\x7ba: " = .error ⟨"could not repair", "\x7ba: "⟩ ∧
    (mcp_call_tool stubRemote stubLibs scrapeCachedState "scrape"
      "\x7ba: ").response
      = "❌ Erreur JSON : "
        ++ fixJsonErrorMessage ⟨"could not repair", "\x7ba: "⟩ :=
  ⟨rfl, rfl,
    (c5_unrepairable_no_dispatch stubRemote stubLibs scrapeCachedState "scrape"
      "\x7ba: " (toolSchemaJson scrapeTool) ⟨"could not repair", "\x7ba: "⟩
      rfl rfl).1⟩

/-- Claim C7: every public operation is total and yields one of the
enumerated textual shapes for every remote behaviour, library behaviour,
state and input — either a JSON dump or one of the fixed error/guidance
strings produced at the outer `try/except` boundary; no other outcome
exists. -/
theorem c7_outer_boundary_total (r : Remote) (L : Libs) (st : ToolsState)
    (t args : String) :
    ((∃ e, (mcp_list_tools r L st).response
        = "Error while listing MCP tools: " ++ e) ∨
      (∃ j, (mcp_list_tools r L st).response = L.dumps j)) ∧
    ((∃ e, (mcp_get_tool_schema r L st t).response
        = "Error while getting MCP tool schema: " ++ e) ∨
      (∃ j, (mcp_get_tool_schema r L st t).response = L.dumps j)) ∧
    ((mcp_call_tool r L st t args).response = gateMessage t ∨
      (∃ e, (mcp_call_tool r L st t args).response
        = "❌ Erreur JSON : " ++ e) ∨
      (∃ e, (mcp_call_tool r L st t args).response
        = "Error while calling MCP tool " ++ sQuote ++ t ++ sQuote ++ ": " ++ e) ∨
      (∃ j, (mcp_call_tool r L st t args).response = L.dumps j)) := by
  refine ⟨?_, ?_, ?_⟩
  · cases hc : r.connect with
    | error e => exact .inl ⟨e, by simp [mcp_list_tools, hc]⟩
    | ok u =>
      cases hl : r.listTools with
      | error e => exact .inl ⟨e, by simp [mcp_list_tools, hc, hl]⟩
      | ok tools =>
        exact .inr ⟨.arr (tools.map cleanedToolJson),
          by simp [mcp_list_tools, hc, hl]⟩
  · cases hc : r.connect with
    | error e => exact .inl ⟨e, by simp [mcp_get_tool_schema, hc]⟩
    | ok u =>
      cases hl : r.listTools with
      | error e => exact .inl ⟨e, by simp [mcp_get_tool_schema, hc, hl]⟩
      | ok tools =>
        cases hf : findTool tools t with
        | some tool =>
          exact .inr ⟨toolSchemaJson tool, by simp [mcp_get_tool_schema, hc, hl, hf]⟩
        | none =>
          exact .inr ⟨toolNotFoundJson t, by simp [mcp_get_tool_schema, hc, hl, hf]⟩
  · cases hg : cacheLookup st.schema_cache t with
    | none => exact .inl (by simp [mcp_call_tool, hg])
    | some s =>
      cases hf : fix_json L args with
      | error e =>
        exact .inr (.inl ⟨fixJsonErrorMessage e, by simp [mcp_call_tool, hg, hf]⟩)
      | ok v =>
        cases hc : r.connect with
        | error e =>
          exact .inr (.inr (.inl ⟨e, by simp [mcp_call_tool, hg, hf, hc]⟩))
        | ok u =>
          cases hcall : r.callTool t v with
          | error e =>
            exact .inr (.inr (.inl ⟨e, by simp [mcp_call_tool, hg, hf, hc, hcall]⟩))
          | ok res =>
            exact .inr (.inr (.inr ⟨res, by simp [mcp_call_tool, hg, hf, hc, hcall]⟩))

/-- Counterexample to C8: there is no session cache — two consecutive
discovery operations against the same healthy remote each open (and close)
their own session, so a new session is created per operation instead of a
cached one being reused. -/
theorem c8_counterexample :
    ((mcp_list_tools stubRemote stubLibs initState).events.count
        Event.sessionOpened = 1) ∧
    ((mcp_get_tool_schema stubRemote stubLibs
        (mcp_list_tools stubRemote stubLibs initState).state
        "scrape").events.count Event.sessionOpened = 1) ∧
    (((mcp_list_tools stubRemote stubLibs initState).events
        ++ (mcp_get_tool_schema stubRemote stubLibs
            (mcp_list_tools stubRemote stubLibs initState).state
            "scrape").events).count Event.sessionOpened = 2) ∧
    (((mcp_list_tools stubRemote stubLibs initState).events
        ++ (mcp_get_tool_schema stubRemote stubLibs
            (mcp_list_tools stubRemote stubLibs initState).state
            "scrape").events).count Event.sessionClosed = 2) := by
  decide

/-- Claim C8 as amended: `_with_session` keeps no session cache; every
operation that reaches the remote opens exactly one fresh session and
closes it when the operation completes, yielding the exact event trace
below for each of the three public operations. -/
theorem c8_fresh_session_per_operation (r : Remote) (L : Libs)
    (st : ToolsState) (t args : String) (hconn : r.connect = .ok ()) :
    (mcp_list_tools r L st).events
      = [.sessionOpened, .remoteListTools, .sessionClosed] ∧
    (mcp_get_tool_schema r L st t).events
      = [.sessionOpened, .remoteListTools, .sessionClosed] ∧
    (∀ s v, cacheLookup st.schema_cache t = some s →
      fix_json L args = .ok v →
      (mcp_call_tool r L st t args).events
        = [.fixJsonInvoked args, .sessionOpened, .remoteCallTool t,
           .sessionClosed]) := by
  refine ⟨?_, ?_, ?_⟩
  · cases hl : r.listTools with
    | error e => simp [mcp_list_tools, hconn, hl]
    | ok tools => simp [mcp_list_tools, hconn, hl]
  · cases hl : r.listTools with
    | error e => simp [mcp_get_tool_schema, hconn, hl]
    | ok tools =>
      cases hf : findTool tools t with
      | some tool => simp [mcp_get_tool_schema, hconn, hl, hf]
      | none => simp [mcp_get_tool_schema, hconn, hl, hf]
  · intro s v hs hv
    cases hcall : r.callTool t v with
    | error e => simp [mcp_call_tool, hs, hv, hconn, hcall]
    | ok res => simp [mcp_call_tool, hs, hv, hconn, hcall]

/-- Witness for the amended C8 at a concrete input. -/
theorem c8_fresh_session_per_operation_witness :
    stubRemote.connect = .ok () ∧
    (mcp_list_tools stubRemote stubLibs initState).events
      = [.sessionOpened, .remoteListTools, .sessionClosed] :=
  ⟨rfl,
    (c8_fresh_session_per_operation stubRemote stubLibs initState "scrape"
      "\x7b\x7d" rfl).1⟩

/-- Counterexample to C9: the client has no server registry at all —
listing against an unreachable endpoint yields the generic plain error
text, which neither is an `UnknownServerError` nor names any requested
identifier such as `ghost`. -/
theorem c9_counterexample :
    (mcp_list_tools failingRemote stubLibs initState).response
      = "Error while listing MCP tools: connection refused" ∧
    containsSub (mcp_list_tools failingRemote stubLibs initState).response
      "UnknownServerError" = false ∧
    containsSub (mcp_list_tools failingRemote stubLibs initState).response
      "ghost" = false := by
  refine ⟨rfl, ?_, ?_⟩ <;> decide

/-- Claim C9 as amended: the code resolves no server names — the public
operations take no server-name argument and always target the single
configured URL; a failure to reach that endpoint surfaces from
`mcp_list_tools` as the plain text `Error while listing MCP tools: <cause>`
with the state untouched and no session opened. -/
theorem c9_no_registry_plain_error (r : Remote) (L : Libs) (st : ToolsState)
    (e : String) (hconn : r.connect = .error e) :
    (mcp_list_tools r L st).response
      = "Error while listing MCP tools: " ++ e ∧
    (mcp_list_tools r L st).state = st ∧
    (mcp_list_tools r L st).events = [] := by
  simp [mcp_list_tools, hconn]

/-- Witness for the amended C9 at a concrete input. -/
theorem c9_no_registry_plain_error_witness :
    failingRemote.connect = .error "connection refused" ∧
    (mcp_list_tools failingRemote stubLibs initState).response
      = "Error while listing MCP tools: " ++ "connection refused" :=
  ⟨rfl,
    (c9_no_registry_plain_error failingRemote stubLibs initState
      "connection refused" rfl).1⟩

/-- Claim C10: the gate check precedes argument repair — for a tool absent
from the schema cache, `mcp_call_tool` returns the gate guidance, never
emits a `fixJsonInvoked` event, and its whole result is independent of the
remote and of the parser libraries (so no parse-error result can arise for
a gate-blocked tool, whatever the argument text). -/
theorem c10_gate_precedes_repair (r r₂ : Remote) (L L₂ : Libs)
    (st : ToolsState) (t args : String)
    (hnone : cacheLookup st.schema_cache t = none) :
    (mcp_call_tool r L st t args).response = gateMessage t ∧
    Event.fixJsonInvoked args ∉ (mcp_call_tool r L st t args).events ∧
    mcp_call_tool r L st t args = mcp_call_tool r₂ L₂ st t args := by
  refine ⟨?_, ?_, ?_⟩ <;> simp [mcp_call_tool, hnone]

/-- Witness for C10 at a concrete input: unrepairable garbage arguments,
two different remotes. -/
theorem c10_gate_precedes_repair_witness :
    cacheLookup initState.schema_cache "scrape" = none ∧
    mcp_call_tool stubRemote stubLibs initState "scrape" "\x7ba: "
      = mcp_call_tool failingRemote stubLibs initState "scrape" "\x7ba: " :=
  ⟨rfl,
    (c10_gate_precedes_repair stubRemote failingRemote stubLibs stubLibs
      initState "scrape" "\x7ba: " rfl).2.2⟩
